import Mathlib

/-!
Shallow embedding of the swaptz timestamp core (`src/lib/timestamp.ts`,
provided as `src/unnamed/part_001`): validation of raw timestamp strings,
multi-mode formatting with a timezone-fallback retry, the relative-time
algorithm, and the safe wrapper.  JavaScript numbers that reach this module
are modelled as exact integers together with the non-finite sentinels; the
host's `Intl`/`Date` calendar capability is modelled by an explicit
environment record.
-/

namespace Swaptz

/-- JS runtime number as consumed by the timestamp module: a finite value or
one of the non-finite sentinels (`NaN`, `Infinity`, `-Infinity`).  Finite
values are carried exactly: `int` for integer-valued numbers and `frac` for
the other finite (fractional) values, both idealizing IEEE doubles as exact
rationals (every double is a rational, and all values the claims touch are
exactly representable). -/
inductive JSNum where
  | nan
  | inf
  | neginf
  | int (t : Int)
  | frac (q : ℚ)
  deriving DecidableEq

/-- JS runtime value for the `unknown`-typed arguments of the type guards. -/
inductive JSValue where
  | num (x : JSNum)
  | str (s : String)
  | undef
  | nullv
  | other
  deriving DecidableEq

/-- `Number.isFinite` on the modelled numbers. -/
def jsIsFinite : JSNum → Bool
  | JSNum.int _ => true
  | JSNum.frac _ => true
  | _ => false

/-- JS comparison `value >= 0` on the modelled numbers (`NaN >= 0` is false,
`Infinity >= 0` is true). -/
def jsNonneg : JSNum → Bool
  | JSNum.int t => decide (0 ≤ t)
  | JSNum.frac q => decide (0 ≤ q)
  | JSNum.inf => true
  | _ => false

/-- ASCII decimal digit test, i.e. code point between 48 (`0`) and 57 (`9`);
this is the digit set `parseInt(_, 10)` accepts. -/
def isDecDigit (c : Char) : Bool :=
  48 ≤ c.toNat && c.toNat ≤ 57

/-- Numeric value of an ASCII decimal digit. -/
def digitVal (c : Char) : Nat :=
  c.toNat - 48

/-- Whitespace skipped by `parseInt` before the optional sign (ECMA-262
`TrimString`): space, tab, LF, VT, FF, CR, NBSP, LS, PS, ZWNBSP. -/
def isJsWhitespace (c : Char) : Bool :=
  c.toNat = 32 || c.toNat = 9 || c.toNat = 10 || c.toNat = 11 || c.toNat = 12 ||
  c.toNat = 13 || c.toNat = 160 || c.toNat = 8232 || c.toNat = 8233 || c.toNat = 65279

/-- Accumulate the numeric value of the longest decimal-digit run at the head
of the list, stopping at the first non-digit (trailing characters are
ignored, exactly as `parseInt` does). -/
def takeDigitsAcc : Nat → List Char → Nat
  | acc, [] => acc
  | acc, c :: cs => if isDecDigit c then takeDigitsAcc (acc * 10 + digitVal c) cs else acc

/-- Longest leading decimal-digit run, requiring at least one digit
(`parseInt` yields `NaN` when no digit follows the optional sign). -/
def parseDigitRun : List Char → Option Nat
  | [] => none
  | c :: cs => if isDecDigit c then some (takeDigitsAcc (digitVal c) cs) else none

/-- Optional sign (code point 45 is `-`, 43 is `+`) followed by a digit run. -/
def signedDigitRun : List Char → Option Int
  | [] => none
  | c :: cs =>
    if c.toNat = 45 then (parseDigitRun cs).map (fun n => -(n : Int))
    else if c.toNat = 43 then (parseDigitRun cs).map (fun n => (n : Int))
    else (parseDigitRun (c :: cs)).map (fun n => (n : Int))

/-- `parseInt(s, 10)` on the modelled (exact-integer) numbers: skip leading
JS whitespace, read an optional sign and then the longest decimal-digit run;
`none` models the `NaN` result.  Exact integers stand in for the IEEE doubles
`parseInt` actually returns; within the validated range all doubles are
exact, so the modelled results agree with the runtime ones there. -/
def jsParseInt (s : String) : Option Int :=
  signedDigitRun (s.data.dropWhile isJsWhitespace)

/-- Lower bound of the accepted timestamp range (`TIMESTAMP_CONSTANTS.MIN_TIMESTAMP`). -/
def MIN_TIMESTAMP : Int := 0

/-- Upper bound of the accepted timestamp range (`TIMESTAMP_CONSTANTS.MAX_TIMESTAMP`,
Jan 1 2100). -/
def MAX_TIMESTAMP : Int := 4102444800

/-- `validateTimestamp` from the source: reject the empty string (falsy guard),
parse with `parseInt(_, 10)`, reject `NaN` and values outside
`[MIN_TIMESTAMP, MAX_TIMESTAMP]`; invalidity is always the `null` (`none`)
result, never an exception (the function is total). -/
def validateTimestamp (timestampStr : String) : Option Int :=
  if timestampStr = "" then none
  else
    match jsParseInt timestampStr with
    | none => none
    | some timestamp =>
      if timestamp < MIN_TIMESTAMP ∨ MAX_TIMESTAMP < timestamp then none
      else some timestamp

/-- `isValidTimestamp` from the source: `typeof value === 'number' &&
Number.isFinite(value) && value >= 0`. -/
def isValidTimestamp : JSValue → Bool
  | JSValue.num x => jsIsFinite x && jsNonneg x
  | _ => false

/-- `Math.round (a / b)` for integer `a` and positive integer `b`, computed
exactly: mathematically `round x = ⌊x + 1/2⌋` (JS rounds ties toward `+∞`),
and `⌊a/b + 1/2⌋ = ⌊(2a+b)/(2b)⌋`, a floor division.  Division inside
`getRelativeTime` always has this `round(x/const)` shape. -/
def jsRoundDiv (a b : Int) : Int :=
  Int.fdiv (2 * a + b) (2 * b)

/-- `getRelativeTime` from the source, on millisecond instants: `nowMs` is
`Date.now()`-style current time and `dateMs` the target's time value.  Each
unit is rounded from the previous already-rounded unit, then the bucket is
chosen: years, weeks, seconds, minutes, hours, days.  The template literals
are transcribed as string appends; `Math.abs` is `Int.natAbs`. -/
def getRelativeTime (nowMs dateMs : Int) : String :=
  let diffMs := dateMs - nowMs
  let diffSec := jsRoundDiv diffMs 1000
  let diffMin := jsRoundDiv diffSec 60
  let diffHour := jsRoundDiv diffMin 60
  let diffDay := jsRoundDiv diffHour 24
  if 365 ≤ diffDay.natAbs then
    let diffYear := jsRoundDiv diffDay 365
    if 0 < diffYear then "in " ++ toString diffYear ++ " year" ++ (if diffYear = 1 then "" else "s")
    else toString (-diffYear) ++ " year" ++ (if diffYear = -1 then "" else "s") ++ " ago"
  else if 7 ≤ diffDay.natAbs then
    let diffWeek := jsRoundDiv diffDay 7
    if 0 < diffWeek then "in " ++ toString diffWeek ++ " week" ++ (if diffWeek = 1 then "" else "s")
    else toString (-diffWeek) ++ " week" ++ (if diffWeek = -1 then "" else "s") ++ " ago"
  else if diffSec.natAbs < 60 then
    if 0 < diffSec then "in " ++ toString diffSec ++ " second" ++ (if diffSec = 1 then "" else "s")
    else toString (-diffSec) ++ " second" ++ (if diffSec = -1 then "" else "s") ++ " ago"
  else if diffMin.natAbs < 60 then
    if 0 < diffMin then "in " ++ toString diffMin ++ " minute" ++ (if diffMin = 1 then "" else "s")
    else toString (-diffMin) ++ " minute" ++ (if diffMin = -1 then "" else "s") ++ " ago"
  else if diffHour.natAbs < 24 then
    if 0 < diffHour then "in " ++ toString diffHour ++ " hour" ++ (if diffHour = 1 then "" else "s")
    else toString (-diffHour) ++ " hour" ++ (if diffHour = -1 then "" else "s") ++ " ago"
  else
    if 0 < diffDay then "in " ++ toString diffDay ++ " day" ++ (if diffDay = 1 then "" else "s")
    else toString (-diffDay) ++ " day" ++ (if diffDay = -1 then "" else "s") ++ " ago"

/-- JS exception value as far as this module inspects one: whether it is a
`RangeError` and its `message`. -/
structure JsError where
  isRangeError : Bool
  message : String
  deriving DecidableEq

/-- JS `String.prototype.includes`: substring test, via prefix-of-some-tail. -/
def strIncludes (hay needle : String) : Bool :=
  hay.data.tails.any (fun t => needle.data.isPrefixOf t)

/-- JS `String.prototype.replace` with a string pattern: replace the first
occurrence only (used by the `compact` and `iso` renderings). -/
def replaceFirstChars (needle repl : List Char) : List Char → List Char
  | [] => if needle.isEmpty then repl else []
  | c :: rest =>
    if needle.isPrefixOf (c :: rest) then repl ++ (c :: rest).drop needle.length
    else c :: replaceFirstChars needle repl rest

/-- String wrapper of `replaceFirstChars`. -/
def jsReplaceFirst (s pat repl : String) : String :=
  String.mk (replaceFirstChars pat.data repl.data s.data)

/-- Modelled from the spec: the external calendar/timezone formatting
capability (spec section 6) and the current-instant source.  Each renderer
takes the instant in milliseconds and a timezone identifier and either
produces the formatted field string or fails (`Intl` raises a `RangeError`
when the timezone identifier is unrecognized; any such failure surfaces here
as an `error` value).  `nowMs` is the current instant used by relative mode. -/
structure Env where
  renderDefault : Int → String → Except JsError String
  renderDate : Int → String → Except JsError String
  renderCompact : Int → String → Except JsError String
  renderISO : Int → String → Except JsError String
  nowMs : Int

/-- Copy of an environment with a different current instant, used to state
that non-relative modes do not read the clock. -/
def setNow (env : Env) (n : Int) : Env :=
  ⟨env.renderDefault, env.renderDate, env.renderCompact, env.renderISO, n⟩

/-- Error thrown for a non-finite or negative timestamp argument. -/
def invalidTimestampError : JsError :=
  ⟨false, "Invalid timestamp: must be a positive finite number"⟩

/-- Error thrown for an empty (or runtime non-string) timezone argument. -/
def invalidTimezoneError : JsError :=
  ⟨false, "Invalid timezone: must be a non-empty string"⟩

/-- Error thrown when `new Date(timestamp * 1000)` is an invalid date. -/
def invalidDateError : JsError :=
  ⟨false, "Invalid timestamp: results in invalid date"⟩

/-- Validity of a `Date` time value built from an integer argument:
ECMA-262 `TimeClip` yields `NaN` exactly when the magnitude exceeds 8.64e15
milliseconds. -/
def isValidDateMs (ms : Int) : Bool :=
  ms.natAbs ≤ 8640000000000000

/-- `TimeClip` validity for a general (rational) `Date` argument: the bound
is checked on the value before truncation. -/
def isValidDateMsQ (x : ℚ) : Bool :=
  |x| ≤ 8640000000000000

/-- ECMA-262 `ToIntegerOrInfinity` on a finite value: truncation toward
zero, producing the time value a `Date` stores for a fractional argument. -/
def jsTrunc (q : ℚ) : Int :=
  if q < 0 then ⌈q⌉ else ⌊q⌋

/-- The mode `switch` of `formatTimestamp` (with a `default` clause, so any
unlisted mode value renders like `default`), applied to the constructed
date's integer time value.  The `compact` and `iso` cases apply the source's
`.replace(',', '')` / `.replace('.000Z', '')` post-processing to the
capability's output. -/
def modeDispatch (env : Env) (ms : Int) (timezone mode : String) : Except JsError String :=
  if mode = "date" then env.renderDate ms timezone
  else if mode = "compact" then (env.renderCompact ms timezone).map (fun s => jsReplaceFirst s "," "")
  else if mode = "iso" then (env.renderISO ms timezone).map (fun s => jsReplaceFirst s ".000Z" "")
  else if mode = "relative" then Except.ok (getRelativeTime env.nowMs ms)
  else env.renderDefault ms timezone

/-- Body of the `try` block of `formatTimestamp` for an integer timestamp:
construct the date, check it is valid, then dispatch on the mode. -/
def formatTryBody (env : Env) (ms : Int) (timezone mode : String) : Except JsError String :=
  if isValidDateMs ms = false then Except.error invalidDateError
  else modeDispatch env ms timezone mode

/-- Body of the `try` block of `formatTimestamp` for a fractional timestamp:
`new Date(timestamp * 1000)` clips the rational milliseconds (validity is
checked on the value before truncation) and stores the truncated time value,
on which the mode switch then operates. -/
def formatTryBodyQ (env : Env) (msq : ℚ) (timezone mode : String) : Except JsError String :=
  if isValidDateMsQ msq = false then Except.error invalidDateError
  else modeDispatch env (jsTrunc msq) timezone mode

/-- One attempt of `formatTimestamp` before the `catch` logic: the two
precondition checks (`!Number.isFinite(timestamp) || timestamp < 0`, then
the falsy-timezone check), then the `try` body.  Folding the precondition
throws into the same `Except` value is observationally identical to
throwing them outside the `try`: they are plain `Error`s, not `RangeError`s,
so the catch block always re-throws them unchanged. -/
def formatAttempt (env : Env) (timestamp : JSNum) (timezone mode : String) :
    Except JsError String :=
  match timestamp with
  | JSNum.int t =>
    if t < 0 then Except.error invalidTimestampError
    else if timezone = "" then Except.error invalidTimezoneError
    else formatTryBody env (t * 1000) timezone mode
  | JSNum.frac q =>
    if q < 0 then Except.error invalidTimestampError
    else if timezone = "" then Except.error invalidTimezoneError
    else formatTryBodyQ env (q * 1000) timezone mode
  | _ => Except.error invalidTimestampError

/-- `formatTimestamp` with explicit retry fuel.  The source's `catch` block
retries the whole call with timezone `"UTC"` whenever the caught error is a
`RangeError` whose message contains `"timezone"`, and re-throws every other
error; the recursion is fuelled because the JS code would recurse again if
the `"UTC"` attempt failed the same way (with fuel exhausted the error is
re-thrown instead). -/
def formatTimestampF (env : Env) : Nat → JSNum → String → String → Except JsError String
  | fuel, timestamp, timezone, mode =>
    match formatAttempt env timestamp timezone mode with
    | Except.ok s => Except.ok s
    | Except.error e =>
      if e.isRangeError && strIncludes e.message "timezone" then
        match fuel with
        | Nat.succ f => formatTimestampF env f timestamp "UTC" mode
        | 0 => Except.error e
      else Except.error e

/-- `formatTimestamp` from the source: one unit of fuel suffices for the one
fallback retry the policy performs. -/
def formatTimestamp (env : Env) (timestamp : JSNum) (timezone mode : String) :
    Except JsError String :=
  formatTimestampF env 1 timestamp timezone mode

/-- Call-site view of `formatTimestamp` with the TS default parameters
applied: an absent (`undefined`) timezone defaults to `"UTC"` and an absent
mode to `"default"`. -/
def formatTimestampOpt (env : Env) (timestamp : JSNum) (timezone : Option String)
    (mode : Option String) : Except JsError String :=
  formatTimestamp env timestamp (timezone.getD "UTC") (mode.getD "default")

/-- `safeFormatTimestamp` from the source: call the formatter, catch any
failure and return the caller-supplied fallback string instead. -/
def safeFormatTimestamp (env : Env) (timestamp : JSNum) (timezone mode fallback : String) :
    String :=
  match formatTimestamp env timestamp timezone mode with
  | Except.ok s => s
  | Except.error _ => fallback

/-- Timezone identifiers recognized by the two sample host environments
below. -/
def knownTZ (tz : String) : Bool :=
  tz = "UTC" || tz = "Australia/Sydney"

/-- Modelled from the spec: a concrete sample host environment whose
calendar capability recognizes two zones and reports an unrecognized
timezone with the distinguishable `RangeError` the spec's fallback policy
relies on (spec section 6).  The rendered strings are symbolic stand-ins for
the host's locale output. -/
def env0 : Env :=
  ⟨fun ms tz => if knownTZ tz then Except.ok (toString ms ++ " default " ++ tz)
    else Except.error ⟨true, "unrecognized timezone " ++ tz⟩,
   fun ms tz => if knownTZ tz then Except.ok (toString ms ++ " date " ++ tz)
    else Except.error ⟨true, "unrecognized timezone " ++ tz⟩,
   fun ms tz => if knownTZ tz then Except.ok (toString ms ++ " compact " ++ tz)
    else Except.error ⟨true, "unrecognized timezone " ++ tz⟩,
   fun ms tz => if knownTZ tz then Except.ok (toString ms ++ " iso " ++ tz)
    else Except.error ⟨true, "unrecognized timezone " ++ tz⟩,
   0⟩

/-- Modelled from the spec: a second sample host environment identical to
`env0` except for the `default`-mode locale output (real hosts differ this
way across ICU versions, e.g. in the spacing around the am/pm marker). -/
def env1 : Env :=
  ⟨fun ms tz => if knownTZ tz then Except.ok (toString ms ++ " DEFAULT " ++ tz)
    else Except.error ⟨true, "unrecognized timezone " ++ tz⟩,
   env0.renderDate, env0.renderCompact, env0.renderISO, 0⟩

/-- Modelled from the spec: "the timezone identifier is unrecognized by the
underlying calendar/timezone capability" at the instant `ms` — every
renderer rejects it, and does so with the distinguishable failure the spec
requires (spec section 6): a `RangeError` whose message names the timezone. -/
def rejectsTZ (env : Env) (ms : Int) (tz : String) : Prop :=
  (∃ e : JsError, env.renderDefault ms tz = Except.error e ∧
    (e.isRangeError && strIncludes e.message "timezone") = true) ∧
  (∃ e : JsError, env.renderDate ms tz = Except.error e ∧
    (e.isRangeError && strIncludes e.message "timezone") = true) ∧
  (∃ e : JsError, env.renderCompact ms tz = Except.error e ∧
    (e.isRangeError && strIncludes e.message "timezone") = true) ∧
  (∃ e : JsError, env.renderISO ms tz = Except.error e ∧
    (e.isRangeError && strIncludes e.message "timezone") = true)

/-- The capability recognizes the timezone identifier at the instant `ms`:
every renderer succeeds on it. -/
def acceptsTZ (env : Env) (ms : Int) (tz : String) : Prop :=
  (∃ s : String, env.renderDefault ms tz = Except.ok s) ∧
  (∃ s : String, env.renderDate ms tz = Except.ok s) ∧
  (∃ s : String, env.renderCompact ms tz = Except.ok s) ∧
  (∃ s : String, env.renderISO ms tz = Except.ok s)

/-- Transcribed from the claim wording for C1: parse "a leading
optional-sign integer run, base 10, stopping at the first non-digit" — with
no provision for leading whitespace, which is where it differs from
`parseInt`. -/
def claimParse (s : String) : Option Int :=
  signedDigitRun s.data

/-- JS `Math.round` on an exact rational: `⌊x + 1/2⌋` (ties toward `+∞`). -/
def roundQ (q : ℚ) : Int :=
  ⌊q + 1 / 2⌋

/-- Transcribed from the claim wording for C5: a positive magnitude renders
as `in {n} {unit(s)}`, a non-positive one as `{|n|} {unit(s)} ago`, and the
unit is singular exactly when the magnitude's absolute value is 1. -/
def renderPhrase (n : Int) (u : String) : String :=
  if 0 < n then "in " ++ toString n ++ " " ++ u ++ (if n.natAbs = 1 then "" else "s")
  else toString |n| ++ " " ++ u ++ (if n.natAbs = 1 then "" else "s") ++ " ago"

/-- Transcribed from the claim wording for C4: `diffSec = round(diffMs/1000)`,
`diffMin = round(diffSec/60)`, `diffHour = round(diffMin/60)`,
`diffDay = round(diffHour/24)` — each unit rounded from the already-rounded
previous unit — and the bucket order years (≥ 365 days), weeks (≥ 7 days),
seconds (< 60), minutes (< 60), hours (< 24), days. -/
def claimRelative (nowMs dateMs : Int) : String :=
  let diffMs := dateMs - nowMs
  let diffSec := roundQ ((diffMs : ℚ) / 1000)
  let diffMin := roundQ ((diffSec : ℚ) / 60)
  let diffHour := roundQ ((diffMin : ℚ) / 60)
  let diffDay := roundQ ((diffHour : ℚ) / 24)
  if 365 ≤ diffDay.natAbs then renderPhrase (roundQ ((diffDay : ℚ) / 365)) "year"
  else if 7 ≤ diffDay.natAbs then renderPhrase (roundQ ((diffDay : ℚ) / 7)) "week"
  else if diffSec.natAbs < 60 then renderPhrase diffSec "second"
  else if diffMin.natAbs < 60 then renderPhrase diffMin "minute"
  else if diffHour.natAbs < 24 then renderPhrase diffHour "hour"
  else renderPhrase diffDay "day"

/-- Decimal digit string (character list) of a natural number, most
significant digit first. -/
def natDecChars (n : Nat) : List Char :=
  if h : n < 10 then [Char.ofNat (48 + n)]
  else natDecChars (n / 10) ++ [Char.ofNat (48 + n % 10)]
termination_by n
decreasing_by exact Nat.div_lt_self (by omega) (by omega)

/-- Decimal numeral string of an integer (sign and digits), the "decimal
string" of a finite numeric value referred to by C9. -/
def intDecString (v : Int) : String :=
  if v < 0 then String.mk (Char.ofNat 45 :: natDecChars v.natAbs)
  else String.mk (natDecChars v.natAbs)

/-! ## Rounding bridge: the source's integer floor-division form of
`Math.round(a/b)` agrees with the claim's `round` on exact rationals. -/

lemma roundQ_intCast_div_natCast (a : ℤ) (b : ℕ) (hb : 0 < b) :
    roundQ ((a : ℚ) / (b : ℚ)) = jsRoundDiv a (b : ℤ) := by
  have hb0 : ((b : ℚ)) ≠ 0 := by positivity
  unfold roundQ jsRoundDiv
  have h1 : (a : ℚ) / (b : ℚ) + 1 / 2 = ((2 * a + (b : ℤ) : ℤ) : ℚ) / ((2 * b : ℕ) : ℚ) := by
    push_cast
    field_simp
    ring
  rw [h1, Rat.floor_intCast_div_natCast, Int.fdiv_eq_ediv _ (by positivity)]
  push_cast
  rfl

lemma roundQ_div_1000 (a : ℤ) : roundQ ((a : ℚ) / 1000) = jsRoundDiv a 1000 := by
  simpa using roundQ_intCast_div_natCast a 1000 (by norm_num)

lemma roundQ_div_60 (a : ℤ) : roundQ ((a : ℚ) / 60) = jsRoundDiv a 60 := by
  simpa using roundQ_intCast_div_natCast a 60 (by norm_num)

lemma roundQ_div_24 (a : ℤ) : roundQ ((a : ℚ) / 24) = jsRoundDiv a 24 := by
  simpa using roundQ_intCast_div_natCast a 24 (by norm_num)

lemma roundQ_div_365 (a : ℤ) : roundQ ((a : ℚ) / 365) = jsRoundDiv a 365 := by
  simpa using roundQ_intCast_div_natCast a 365 (by norm_num)

lemma roundQ_div_7 (a : ℤ) : roundQ ((a : ℚ) / 7) = jsRoundDiv a 7 := by
  simpa using roundQ_intCast_div_natCast a 7 (by norm_num)

/-! ## Phrase alignment: each source bucket branch is the claim's
sign/plural rendering convention. -/

lemma branch_eq_renderPhrase (n : Int) (su u : String) (hsu : su = " " ++ u) :
    (if 0 < n then "in " ++ toString n ++ su ++ (if n = 1 then "" else "s")
     else toString (-n) ++ su ++ (if n = -1 then "" else "s") ++ " ago") = renderPhrase n u := by
  subst hsu
  unfold renderPhrase
  by_cases hp : 0 < n
  · have h1 : (n.natAbs = 1) = (n = 1) := propext (by omega)
    simp only [if_pos hp, h1, String.append_assoc]
  · have h1 : (n.natAbs = 1) = (n = -1) := propext (by omega)
    have h2 : |n| = -n := abs_of_nonpos (by omega)
    simp only [if_neg hp, h1, h2, String.append_assoc]

lemma yearBranch_eq (n : Int) :
    (if 0 < n then "in " ++ toString n ++ " year" ++ (if n = 1 then "" else "s")
     else toString (-n) ++ " year" ++ (if n = -1 then "" else "s") ++ " ago") =
      renderPhrase n "year" :=
  branch_eq_renderPhrase n " year" "year" rfl

lemma weekBranch_eq (n : Int) :
    (if 0 < n then "in " ++ toString n ++ " week" ++ (if n = 1 then "" else "s")
     else toString (-n) ++ " week" ++ (if n = -1 then "" else "s") ++ " ago") =
      renderPhrase n "week" :=
  branch_eq_renderPhrase n " week" "week" rfl

lemma secondBranch_eq (n : Int) :
    (if 0 < n then "in " ++ toString n ++ " second" ++ (if n = 1 then "" else "s")
     else toString (-n) ++ " second" ++ (if n = -1 then "" else "s") ++ " ago") =
      renderPhrase n "second" :=
  branch_eq_renderPhrase n " second" "second" rfl

lemma minuteBranch_eq (n : Int) :
    (if 0 < n then "in " ++ toString n ++ " minute" ++ (if n = 1 then "" else "s")
     else toString (-n) ++ " minute" ++ (if n = -1 then "" else "s") ++ " ago") =
      renderPhrase n "minute" :=
  branch_eq_renderPhrase n " minute" "minute" rfl

lemma hourBranch_eq (n : Int) :
    (if 0 < n then "in " ++ toString n ++ " hour" ++ (if n = 1 then "" else "s")
     else toString (-n) ++ " hour" ++ (if n = -1 then "" else "s") ++ " ago") =
      renderPhrase n "hour" :=
  branch_eq_renderPhrase n " hour" "hour" rfl

lemma dayBranch_eq (n : Int) :
    (if 0 < n then "in " ++ toString n ++ " day" ++ (if n = 1 then "" else "s")
     else toString (-n) ++ " day" ++ (if n = -1 then "" else "s") ++ " ago") =
      renderPhrase n "day" :=
  branch_eq_renderPhrase n " day" "day" rfl

/-- The source relative-time algorithm coincides with the claim's
description of it, pointwise on all instants. -/
lemma getRelativeTime_eq_claimRelative (nowMs dateMs : Int) :
    getRelativeTime nowMs dateMs = claimRelative nowMs dateMs := by
  unfold getRelativeTime claimRelative
  simp only [roundQ_div_1000, roundQ_div_60, roundQ_div_24, roundQ_div_365, roundQ_div_7,
    yearBranch_eq, weekBranch_eq, secondBranch_eq, minuteBranch_eq, hourBranch_eq, dayBranch_eq]

/-! ## Decimal digit strings round-trip through the parser. -/

lemma decDigit_facts (d : Nat) (hd : d < 10) :
    (Char.ofNat (48 + d)).toNat = 48 + d ∧ isDecDigit (Char.ofNat (48 + d)) = true := by
  interval_cases d <;> exact ⟨rfl, rfl⟩

lemma digit_not_ws_sign (c : Char) (h : isDecDigit c = true) :
    isJsWhitespace c = false ∧ c.toNat ≠ 45 ∧ c.toNat ≠ 43 := by
  simp only [isDecDigit, Bool.and_eq_true, decide_eq_true_eq] at h
  simp only [isJsWhitespace, Bool.or_eq_false_iff, decide_eq_false_iff_not]
  omega

lemma takeDigitsAcc_append_digits (xs : List Char) (hxs : ∀ c ∈ xs, isDecDigit c = true) :
    ∀ (acc : Nat) (ys : List Char),
      takeDigitsAcc acc (xs ++ ys) = takeDigitsAcc (takeDigitsAcc acc xs) ys := by
  induction xs with
  | nil => intro acc ys; rfl
  | cons c cs ih =>
    intro acc ys
    have hc : isDecDigit c = true := hxs c (by simp)
    simp only [List.cons_append, takeDigitsAcc, hc, if_true]
    exact ih (fun x hx => hxs x (by simp [hx])) _ _

lemma natDecChars_digits (n : Nat) : ∀ c ∈ natDecChars n, isDecDigit c = true := by
  induction n using Nat.strong_induction_on with
  | _ n ih =>
    rw [natDecChars]
    split
    case isTrue h =>
      intro c hc
      simp only [List.mem_singleton] at hc
      subst hc
      exact (decDigit_facts n h).2
    case isFalse h =>
      intro c hc
      rcases List.mem_append.mp hc with h1 | h1
      · exact ih (n / 10) (Nat.div_lt_self (by omega) (by omega)) c h1
      · simp only [List.mem_singleton] at h1
        subst h1
        exact (decDigit_facts (n % 10) (Nat.mod_lt _ (by omega))).2

lemma natDecChars_ne_nil (n : Nat) : natDecChars n ≠ [] := by
  rw [natDecChars]
  split
  · simp
  · simp

lemma takeDigitsAcc_natDecChars (n : Nat) :
    ∀ acc, takeDigitsAcc acc (natDecChars n) = acc * 10 ^ (natDecChars n).length + n := by
  induction n using Nat.strong_induction_on with
  | _ n ih =>
    intro acc
    rw [natDecChars]
    split
    case isTrue h =>
      have hf := decDigit_facts n h
      simp [takeDigitsAcc, hf.1, hf.2, digitVal]
    case isFalse h =>
      have hdigs := natDecChars_digits (n / 10)
      have hf := decDigit_facts (n % 10) (Nat.mod_lt _ (by omega))
      rw [takeDigitsAcc_append_digits _ hdigs]
      rw [ih (n / 10) (Nat.div_lt_self (by omega) (by omega)) acc]
      simp only [takeDigitsAcc, hf.2, if_true, digitVal, hf.1, List.length_append,
        List.length_singleton]
      generalize (natDecChars (n / 10)).length = L
      have key : n / 10 * 10 + (48 + n % 10 - 48) = n := by omega
      calc (acc * 10 ^ L + n / 10) * 10 + (48 + n % 10 - 48)
          = acc * (10 ^ L * 10) + (n / 10 * 10 + (48 + n % 10 - 48)) := by ring
        _ = acc * 10 ^ (L + 1) + n := by rw [key, pow_succ]

lemma jsParseInt_natDec (n : Nat) :
    jsParseInt (String.mk (natDecChars n)) = some (n : Int) := by
  obtain ⟨c, cs, hcons⟩ : ∃ c cs, natDecChars n = c :: cs := by
    cases h : natDecChars n with
    | nil => exact absurd h (natDecChars_ne_nil n)
    | cons c cs => exact ⟨c, cs, rfl⟩
  have hc : isDecDigit c = true := natDecChars_digits n c (by rw [hcons]; simp)
  have hfacts := digit_not_ws_sign c hc
  have hval : takeDigitsAcc (digitVal c) cs = n := by
    have h3 := takeDigitsAcc_natDecChars n 0
    rw [hcons] at h3
    simpa [takeDigitsAcc, hc] using h3
  unfold jsParseInt
  rw [show (String.mk (natDecChars n)).data = natDecChars n from rfl, hcons]
  simp [List.dropWhile, hfacts.1, signedDigitRun, hfacts.2.1, hfacts.2.2, parseDigitRun, hc, hval]

/-! ## Unfolding helpers for the formatter. -/

lemma isValidDateMs_of_range (t : Int) (h0 : 0 ≤ t) (h1 : t ≤ MAX_TIMESTAMP) :
    isValidDateMs (t * 1000) = true := by
  unfold MAX_TIMESTAMP at h1
  simp only [isValidDateMs, decide_eq_true_eq]
  omega

lemma formatTryBody_default (env : Env) (ms : Int) (tz mode : String)
    (hd : isValidDateMs ms = true)
    (h1 : mode ≠ "date") (h2 : mode ≠ "compact") (h3 : mode ≠ "iso") (h4 : mode ≠ "relative") :
    formatTryBody env ms tz mode = env.renderDefault ms tz := by
  unfold formatTryBody modeDispatch
  simp [hd, h1, h2, h3, h4]

lemma formatTryBody_date (env : Env) (ms : Int) (tz : String)
    (hd : isValidDateMs ms = true) :
    formatTryBody env ms tz "date" = env.renderDate ms tz := by
  unfold formatTryBody modeDispatch
  simp [hd]

lemma formatTryBody_compact (env : Env) (ms : Int) (tz : String)
    (hd : isValidDateMs ms = true) :
    formatTryBody env ms tz "compact" =
      (env.renderCompact ms tz).map (fun s => jsReplaceFirst s "," "") := by
  unfold formatTryBody modeDispatch
  simp [hd]

lemma formatTryBody_iso (env : Env) (ms : Int) (tz : String)
    (hd : isValidDateMs ms = true) :
    formatTryBody env ms tz "iso" =
      (env.renderISO ms tz).map (fun s => jsReplaceFirst s ".000Z" "") := by
  unfold formatTryBody modeDispatch
  simp [hd]

lemma formatTryBody_relative (env : Env) (ms : Int) (tz : String)
    (hd : isValidDateMs ms = true) :
    formatTryBody env ms tz "relative" = Except.ok (getRelativeTime env.nowMs ms) := by
  unfold formatTryBody modeDispatch
  simp [hd]

lemma formatTryBody_mode_irrel (env : Env) (ms : Int) (tz mode : String)
    (h1 : mode ≠ "date") (h2 : mode ≠ "compact") (h3 : mode ≠ "iso") (h4 : mode ≠ "relative") :
    formatTryBody env ms tz mode = formatTryBody env ms tz "default" := by
  unfold formatTryBody modeDispatch
  simp [h1, h2, h3, h4]

lemma formatTryBodyQ_mode_irrel (env : Env) (msq : ℚ) (tz mode : String)
    (h1 : mode ≠ "date") (h2 : mode ≠ "compact") (h3 : mode ≠ "iso") (h4 : mode ≠ "relative") :
    formatTryBodyQ env msq tz mode = formatTryBodyQ env msq tz "default" := by
  unfold formatTryBodyQ modeDispatch
  simp [h1, h2, h3, h4]

lemma formatTryBody_setNow (env : Env) (n ms : Int) (tz mode : String)
    (hm : mode ≠ "relative") :
    formatTryBody (setNow env n) ms tz mode = formatTryBody env ms tz mode := by
  unfold formatTryBody modeDispatch setNow
  simp [hm]

lemma formatTryBodyQ_setNow (env : Env) (n : Int) (msq : ℚ) (tz mode : String)
    (hm : mode ≠ "relative") :
    formatTryBodyQ (setNow env n) msq tz mode = formatTryBodyQ env msq tz mode := by
  unfold formatTryBodyQ modeDispatch setNow
  simp [hm]

lemma formatAttempt_int (env : Env) (t : Int) (tz mode : String)
    (ht : ¬ t < 0) (htz : tz ≠ "") :
    formatAttempt env (JSNum.int t) tz mode = formatTryBody env (t * 1000) tz mode := by
  unfold formatAttempt
  simp [ht, htz]

lemma formatAttempt_frac (env : Env) (q : ℚ) (tz mode : String)
    (hq : ¬ q < 0) (htz : tz ≠ "") :
    formatAttempt env (JSNum.frac q) tz mode = formatTryBodyQ env (q * 1000) tz mode := by
  unfold formatAttempt
  simp [hq, htz]

lemma formatTimestampF_of_ok (env : Env) (fuel : Nat) (ts : JSNum) (tz mode s : String)
    (h : formatAttempt env ts tz mode = Except.ok s) :
    formatTimestampF env fuel ts tz mode = Except.ok s := by
  unfold formatTimestampF
  rw [h]

lemma formatTimestampF_of_err (env : Env) (fuel : Nat) (ts : JSNum) (tz mode : String)
    (e : JsError)
    (h : formatAttempt env ts tz mode = Except.error e)
    (he : (e.isRangeError && strIncludes e.message "timezone") = false) :
    formatTimestampF env fuel ts tz mode = Except.error e := by
  unfold formatTimestampF
  rw [h]
  simp [he]

lemma formatTimestampF_of_retry (env : Env) (f : Nat) (ts : JSNum) (tz mode : String)
    (e : JsError)
    (h : formatAttempt env ts tz mode = Except.error e)
    (he : (e.isRangeError && strIncludes e.message "timezone") = true) :
    formatTimestampF env (Nat.succ f) ts tz mode = formatTimestampF env f ts "UTC" mode := by
  conv_lhs => rw [formatTimestampF]
  rw [h]
  simp [he]

lemma formatTimestampF_of_retry_zero (env : Env) (ts : JSNum) (tz mode : String)
    (e : JsError)
    (h : formatAttempt env ts tz mode = Except.error e)
    (he : (e.isRangeError && strIncludes e.message "timezone") = true) :
    formatTimestampF env 0 ts tz mode = Except.error e := by
  unfold formatTimestampF
  rw [h]
  simp [he]

lemma formatTimestampF_neg (env : Env) (fuel : Nat) (t : Int) (tz mode : String)
    (ht : t < 0) :
    formatTimestampF env fuel (JSNum.int t) tz mode = Except.error invalidTimestampError := by
  apply formatTimestampF_of_err
  · unfold formatAttempt
    simp [ht]
  · rfl

lemma formatTimestampF_emptyTZ (env : Env) (fuel : Nat) (t : Int) (mode : String)
    (ht : ¬ t < 0) :
    formatTimestampF env fuel (JSNum.int t) "" mode = Except.error invalidTimezoneError := by
  apply formatTimestampF_of_err
  · unfold formatAttempt
    simp [ht]
  · rfl

lemma formatTimestampF_ok (env : Env) (fuel : Nat) (t : Int) (tz mode s : String)
    (ht : ¬ t < 0) (htz : tz ≠ "")
    (hb : formatTryBody env (t * 1000) tz mode = Except.ok s) :
    formatTimestampF env fuel (JSNum.int t) tz mode = Except.ok s :=
  formatTimestampF_of_ok env fuel _ tz mode s ((formatAttempt_int env t tz mode ht htz).trans hb)

lemma formatTimestampF_err (env : Env) (fuel : Nat) (t : Int) (tz mode : String) (e : JsError)
    (ht : ¬ t < 0) (htz : tz ≠ "")
    (hb : formatTryBody env (t * 1000) tz mode = Except.error e)
    (he : (e.isRangeError && strIncludes e.message "timezone") = false) :
    formatTimestampF env fuel (JSNum.int t) tz mode = Except.error e :=
  formatTimestampF_of_err env fuel _ tz mode e
    ((formatAttempt_int env t tz mode ht htz).trans hb) he

/-! ## Claim theorems. -/

/-- C1 counterexample: `parseInt` (and hence `validateTimestamp`) skips
leading whitespace, so `" 5"` is accepted with value `5`, while the claim's
own description of the parse — a leading optional-sign digit run — yields
`NaN`, for which the claim requires `null`. -/
theorem claim1_counterexample :
    validateTimestamp " 5" = some 5 ∧ claimParse " 5" = none := by
  exact ⟨by decide, by decide⟩

/-- C1 (amended): `validateTimestamp s` is a non-null integer iff `s` parses
under `parseInt(s, 10)` semantics — optional leading JS whitespace, then an
optional sign and the base-10 digit run stopping at the first non-digit, so
`"1.5"` parses as `1` — to an integer `n` with `0 ≤ n ≤ 4102444800`; the
returned integer is exactly the parsed one; otherwise it returns null; it
never throws (the embedded function is total); and the four concrete
scenarios of the claim hold. -/
theorem claim1_validateTimestamp_range :
    (∀ s : String, (validateTimestamp s).isSome = true ↔
      ∃ n : Int, jsParseInt s = some n ∧ 0 ≤ n ∧ n ≤ MAX_TIMESTAMP)
    ∧ (∀ (s : String) (n : Int), validateTimestamp s = some n →
        jsParseInt s = some n ∧ 0 ≤ n ∧ n ≤ MAX_TIMESTAMP)
    ∧ validateTimestamp "1747510600" = some 1747510600
    ∧ validateTimestamp "-1" = none
    ∧ validateTimestamp "4102444801" = none
    ∧ validateTimestamp "1.5" = some 1 := by
  have key : ∀ (s : String) (n : Int), validateTimestamp s = some n →
      jsParseInt s = some n ∧ 0 ≤ n ∧ n ≤ MAX_TIMESTAMP := by
    intro s n h
    unfold validateTimestamp at h
    by_cases hs : s = ""
    · simp [hs] at h
    · rw [if_neg hs] at h
      cases hp : jsParseInt s with
      | none => rw [hp] at h; exact absurd h (by simp)
      | some m =>
        rw [hp] at h
        have h' : (if m < MIN_TIMESTAMP ∨ MAX_TIMESTAMP < m then (none : Option Int)
            else some m) = some n := h
        by_cases hr : m < MIN_TIMESTAMP ∨ MAX_TIMESTAMP < m
        · rw [if_pos hr] at h'; exact absurd h' (by simp)
        · rw [if_neg hr] at h'
          have hm : m = n := by simpa using h'
          subst hm
          push_neg at hr
          unfold MIN_TIMESTAMP at hr
          exact ⟨rfl, hr.1, hr.2⟩
  refine ⟨?_, key, by decide, by decide, by decide, by decide⟩
  intro s
  constructor
  · intro h
    obtain ⟨n, hn⟩ := Option.isSome_iff_exists.mp h
    exact ⟨n, key s n hn⟩
  · rintro ⟨n, hp, h0, h1⟩
    have hs : s ≠ "" := by
      intro hcon
      rw [hcon, show jsParseInt "" = none from rfl] at hp
      exact absurd hp (by simp)
    unfold validateTimestamp
    rw [if_neg hs, hp]
    have hr : ¬ (n < MIN_TIMESTAMP ∨ MAX_TIMESTAMP < n) := by
      simp only [MIN_TIMESTAMP, MAX_TIMESTAMP] at h1 ⊢
      omega
    show (if n < MIN_TIMESTAMP ∨ MAX_TIMESTAMP < n then (none : Option Int)
        else some n).isSome = true
    rw [if_neg hr]
    rfl

/-- C1 witness: the amended range property applied at a concrete accepted
string (one with leading whitespace, exercising the amendment). -/
theorem claim1_witness :
    jsParseInt " 42" = some 42 ∧ (0 : Int) ≤ 42 ∧ (42 : Int) ≤ MAX_TIMESTAMP :=
  claim1_validateTimestamp_range.2.1 " 42" 42 (by decide)

/-- One successful fallback round for an integer timestamp: when the try
body fails with the distinguishable timezone error and the UTC body
succeeds, both the original call and the UTC call return the UTC string. -/
lemma fallback_both (env : Env) (t : Int) (tz mode : String) (e : JsError) (s : String)
    (ht : ¬ t < 0) (htz : tz ≠ "")
    (hb : formatTryBody env (t * 1000) tz mode = Except.error e)
    (he : (e.isRangeError && strIncludes e.message "timezone") = true)
    (hbU : formatTryBody env (t * 1000) "UTC" mode = Except.ok s) :
    formatTimestamp env (JSNum.int t) tz mode = Except.ok s ∧
    formatTimestamp env (JSNum.int t) "UTC" mode = Except.ok s := by
  have ha : formatAttempt env (JSNum.int t) tz mode = Except.error e :=
    (formatAttempt_int env t tz mode ht htz).trans hb
  have haU : formatAttempt env (JSNum.int t) "UTC" mode = Except.ok s :=
    (formatAttempt_int env t "UTC" mode ht (by decide)).trans hbU
  constructor
  · unfold formatTimestamp
    rw [show (1 : Nat) = Nat.succ 0 from rfl,
      formatTimestampF_of_retry env 0 (JSNum.int t) tz mode e ha he]
    exact formatTimestampF_of_ok env 0 _ _ _ s haU
  · unfold formatTimestamp
    exact formatTimestampF_of_ok env 1 _ _ _ s haU

/-- C2: for every valid timestamp and every mode, when the calendar
capability rejects the requested timezone with the distinguishable failure
the fallback tests for (a RangeError whose message contains "timezone") and
recognizes `"UTC"`, `formatTimestamp` does not raise: it retries once with
UTC and returns exactly what the UTC call returns; and any rendering failure
that is not such a timezone error propagates to the caller unchanged. -/
theorem claim2_timezone_fallback :
    (∀ (env : Env) (t : Int) (tz : String),
      0 ≤ t → t ≤ MAX_TIMESTAMP → tz ≠ "" →
      rejectsTZ env (t * 1000) tz →
      acceptsTZ env (t * 1000) "UTC" →
      ∀ mode : String,
        formatTimestamp env (JSNum.int t) tz mode =
          formatTimestamp env (JSNum.int t) "UTC" mode
        ∧ ∃ s, formatTimestamp env (JSNum.int t) tz mode = Except.ok s)
    ∧ (∀ (env : Env) (t : Int) (tz mode : String) (e : JsError),
      0 ≤ t → tz ≠ "" →
      formatTryBody env (t * 1000) tz mode = Except.error e →
      (e.isRangeError && strIncludes e.message "timezone") = false →
      formatTimestamp env (JSNum.int t) tz mode = Except.error e) := by
  constructor
  · intro env t tz h0 h1 htz hrej hacc mode
    have hd : isValidDateMs (t * 1000) = true := isValidDateMs_of_range t h0 h1
    have ht : ¬ t < 0 := by omega
    obtain ⟨⟨e1, he1, hq1⟩, ⟨e2, he2, hq2⟩, ⟨e3, he3, hq3⟩, ⟨e4, he4, hq4⟩⟩ := hrej
    obtain ⟨⟨s1, hs1⟩, ⟨s2, hs2⟩, ⟨s3, hs3⟩, ⟨s4, hs4⟩⟩ := hacc
    by_cases hm1 : mode = "date"
    · subst hm1
      have k := fallback_both env t tz "date" e2 s2 ht htz
        ((formatTryBody_date env _ tz hd).trans he2) hq2
        ((formatTryBody_date env _ "UTC" hd).trans hs2)
      exact ⟨k.1.trans k.2.symm, s2, k.1⟩
    by_cases hm2 : mode = "compact"
    · subst hm2
      have hb : formatTryBody env (t * 1000) tz "compact" = Except.error e3 := by
        rw [formatTryBody_compact env _ tz hd, he3]
        rfl
      have hbU : formatTryBody env (t * 1000) "UTC" "compact" =
          Except.ok (jsReplaceFirst s3 "," "") := by
        rw [formatTryBody_compact env _ "UTC" hd, hs3]
        rfl
      have k := fallback_both env t tz "compact" e3 _ ht htz hb hq3 hbU
      exact ⟨k.1.trans k.2.symm, _, k.1⟩
    by_cases hm3 : mode = "iso"
    · subst hm3
      have hb : formatTryBody env (t * 1000) tz "iso" = Except.error e4 := by
        rw [formatTryBody_iso env _ tz hd, he4]
        rfl
      have hbU : formatTryBody env (t * 1000) "UTC" "iso" =
          Except.ok (jsReplaceFirst s4 ".000Z" "") := by
        rw [formatTryBody_iso env _ "UTC" hd, hs4]
        rfl
      have k := fallback_both env t tz "iso" e4 _ ht htz hb hq4 hbU
      exact ⟨k.1.trans k.2.symm, _, k.1⟩
    by_cases hm4 : mode = "relative"
    · subst hm4
      have ha : formatAttempt env (JSNum.int t) tz "relative" =
          Except.ok (getRelativeTime env.nowMs (t * 1000)) :=
        (formatAttempt_int env t tz "relative" ht htz).trans
          (formatTryBody_relative env _ tz hd)
      have haU : formatAttempt env (JSNum.int t) "UTC" "relative" =
          Except.ok (getRelativeTime env.nowMs (t * 1000)) :=
        (formatAttempt_int env t "UTC" "relative" ht (by decide)).trans
          (formatTryBody_relative env _ "UTC" hd)
      refine ⟨?_, _, by unfold formatTimestamp; exact formatTimestampF_of_ok env 1 _ _ _ _ ha⟩
      unfold formatTimestamp
      rw [formatTimestampF_of_ok env 1 _ _ _ _ ha, formatTimestampF_of_ok env 1 _ _ _ _ haU]
    · have hb : formatTryBody env (t * 1000) tz mode = Except.error e1 :=
        (formatTryBody_default env _ tz mode hd hm1 hm2 hm3 hm4).trans he1
      have hbU : formatTryBody env (t * 1000) "UTC" mode = Except.ok s1 :=
        (formatTryBody_default env _ "UTC" mode hd hm1 hm2 hm3 hm4).trans hs1
      have k := fallback_both env t tz mode e1 s1 ht htz hb hq1 hbU
      exact ⟨k.1.trans k.2.symm, s1, k.1⟩
  · intro env t tz mode e h0 htz hb he
    exact formatTimestampF_err env 1 t tz mode e (by omega) htz hb he

/-- C2 witness: the fallback theorem applied at the sample host environment
and timestamp 0, in the `default` and `compact` modes. -/
theorem claim2_witness :
    (formatTimestamp env0 (JSNum.int 0) "Not/AZone" "default" =
        formatTimestamp env0 (JSNum.int 0) "UTC" "default"
      ∧ ∃ s, formatTimestamp env0 (JSNum.int 0) "Not/AZone" "default" = Except.ok s)
    ∧ (formatTimestamp env0 (JSNum.int 0) "Not/AZone" "compact" =
        formatTimestamp env0 (JSNum.int 0) "UTC" "compact"
      ∧ ∃ s, formatTimestamp env0 (JSNum.int 0) "Not/AZone" "compact" = Except.ok s) :=
  ⟨claim2_timezone_fallback.1 env0 0 "Not/AZone" (by decide) (by decide) (by decide)
      ⟨⟨_, rfl, by decide⟩, ⟨_, rfl, by decide⟩, ⟨_, rfl, by decide⟩, ⟨_, rfl, by decide⟩⟩
      ⟨⟨_, rfl⟩, ⟨_, rfl⟩, ⟨_, rfl⟩, ⟨_, rfl⟩⟩ "default",
   claim2_timezone_fallback.1 env0 0 "Not/AZone" (by decide) (by decide) (by decide)
      ⟨⟨_, rfl, by decide⟩, ⟨_, rfl, by decide⟩, ⟨_, rfl, by decide⟩, ⟨_, rfl, by decide⟩⟩
      ⟨⟨_, rfl⟩, ⟨_, rfl⟩, ⟨_, rfl⟩, ⟨_, rfl⟩⟩ "compact"⟩

/-- C3 counterexample: an absent timezone argument does not raise — the TS
default parameter substitutes `"UTC"` and the call succeeds; moreover when
both arguments are bad, `formatTimestamp (-1) ""` raises the
invalid-timestamp failure, not the invalid-timezone one, because the
timestamp check runs first. -/
theorem claim3_counterexample :
    formatTimestampOpt env0 (JSNum.int 0) none none = Except.ok "0 default UTC"
    ∧ formatTimestamp env0 (JSNum.int (-1)) "" "default" = Except.error invalidTimestampError
    ∧ invalidTimestampError ≠ invalidTimezoneError := by
  exact ⟨rfl, rfl, by decide⟩

/-- C3 (amended): `formatTimestamp` raises the "invalid timestamp" error
whenever the timestamp is not a finite number or is negative (this check
runs first); for a finite non-negative timestamp it raises the "invalid
timezone" error whenever the timezone is the empty string; an absent
timezone argument does not raise — the parameter defaults to `"UTC"`. -/
theorem claim3_preconditions :
    (∀ (env : Env) (tz mode : String),
      formatTimestamp env JSNum.nan tz mode = Except.error invalidTimestampError
      ∧ formatTimestamp env JSNum.inf tz mode = Except.error invalidTimestampError
      ∧ formatTimestamp env JSNum.neginf tz mode = Except.error invalidTimestampError)
    ∧ (∀ (env : Env) (t : Int) (tz mode : String), t < 0 →
        formatTimestamp env (JSNum.int t) tz mode = Except.error invalidTimestampError)
    ∧ (∀ (env : Env) (t : Int) (mode : String), 0 ≤ t →
        formatTimestamp env (JSNum.int t) "" mode = Except.error invalidTimezoneError)
    ∧ (∀ (env : Env) (t : Int) (mode : String),
        formatTimestampOpt env (JSNum.int t) none (some mode) =
          formatTimestamp env (JSNum.int t) "UTC" mode) := by
  refine ⟨fun env tz mode => ⟨rfl, rfl, rfl⟩, ?_, ?_, fun env t mode => rfl⟩
  · intro env t tz mode ht
    exact formatTimestampF_neg env 1 t tz mode ht
  · intro env t mode ht
    exact formatTimestampF_emptyTZ env 1 t mode (by omega)

/-- C3 witness: the precondition failures at concrete inputs. -/
theorem claim3_witness :
    formatTimestamp env0 (JSNum.int (-5)) "UTC" "default" = Except.error invalidTimestampError ∧
    formatTimestamp env0 (JSNum.int 3) "" "default" = Except.error invalidTimezoneError :=
  ⟨claim3_preconditions.2.1 env0 (-5) "UTC" "default" (by decide),
   claim3_preconditions.2.2.1 env0 3 "default" (by decide)⟩

lemma formatAttempt_setNow (env : Env) (n : Int) (ts : JSNum) (tz mode : String)
    (hm : mode ≠ "relative") :
    formatAttempt (setNow env n) ts tz mode = formatAttempt env ts tz mode := by
  cases ts with
  | int t =>
    simp only [formatAttempt]
    rw [formatTryBody_setNow env n (t * 1000) tz mode hm]
  | frac q =>
    simp only [formatAttempt]
    rw [formatTryBodyQ_setNow env n (q * 1000) tz mode hm]
  | nan => rfl
  | inf => rfl
  | neginf => rfl

lemma formatAttempt_mode_irrel (env : Env) (ts : JSNum) (tz mode : String)
    (h1 : mode ≠ "date") (h2 : mode ≠ "compact") (h3 : mode ≠ "iso")
    (h4 : mode ≠ "relative") :
    formatAttempt env ts tz mode = formatAttempt env ts tz "default" := by
  cases ts with
  | int t =>
    simp only [formatAttempt]
    rw [formatTryBody_mode_irrel env (t * 1000) tz mode h1 h2 h3 h4]
  | frac q =>
    simp only [formatAttempt]
    rw [formatTryBodyQ_mode_irrel env (q * 1000) tz mode h1 h2 h3 h4]
  | nan => rfl
  | inf => rfl
  | neginf => rfl

/-- Two formatter runs whose attempts agree pointwise agree everywhere: the
catch/retry logic depends only on the attempt's outcome. -/
lemma formatTimestampF_congr (envA envB : Env) (modeA modeB : String)
    (hatt : ∀ ts tz, formatAttempt envA ts tz modeA = formatAttempt envB ts tz modeB) :
    ∀ (fuel : Nat) (ts : JSNum) (tz : String),
      formatTimestampF envA fuel ts tz modeA = formatTimestampF envB fuel ts tz modeB := by
  intro fuel
  induction fuel with
  | zero =>
    intro ts tz
    cases hb : formatAttempt envB ts tz modeB with
    | ok s =>
      rw [formatTimestampF_of_ok envA 0 ts tz modeA s ((hatt ts tz).trans hb),
        formatTimestampF_of_ok envB 0 ts tz modeB s hb]
    | error e =>
      by_cases he : (e.isRangeError && strIncludes e.message "timezone") = true
      · rw [formatTimestampF_of_retry_zero envA ts tz modeA e ((hatt ts tz).trans hb) he,
          formatTimestampF_of_retry_zero envB ts tz modeB e hb he]
      · have he' : (e.isRangeError && strIncludes e.message "timezone") = false := by
          simpa using he
        rw [formatTimestampF_of_err envA 0 ts tz modeA e ((hatt ts tz).trans hb) he',
          formatTimestampF_of_err envB 0 ts tz modeB e hb he']
  | succ f ih =>
    intro ts tz
    cases hb : formatAttempt envB ts tz modeB with
    | ok s =>
      rw [formatTimestampF_of_ok envA (Nat.succ f) ts tz modeA s ((hatt ts tz).trans hb),
        formatTimestampF_of_ok envB (Nat.succ f) ts tz modeB s hb]
    | error e =>
      by_cases he : (e.isRangeError && strIncludes e.message "timezone") = true
      · rw [formatTimestampF_of_retry envA f ts tz modeA e ((hatt ts tz).trans hb) he,
          formatTimestampF_of_retry envB f ts tz modeB e hb he]
        exact ih ts "UTC"
      · have he' : (e.isRangeError && strIncludes e.message "timezone") = false := by
          simpa using he
        rw [formatTimestampF_of_err envA (Nat.succ f) ts tz modeA e
            ((hatt ts tz).trans hb) he',
          formatTimestampF_of_err envB (Nat.succ f) ts tz modeB e hb he']

/-- C4: the relative-time algorithm is exactly the claim's cascade — each
unit rounded from the previous already-rounded unit, buckets chosen in the
order years, weeks, seconds, minutes, hours, days with the stated cutoffs —
and at the boundaries a target exactly 7 days ahead renders "in 1 week" and
one exactly 365 days ahead renders in years ("in 1 year"). -/
theorem claim4_relative_algorithm :
    (∀ nowMs dateMs : Int, getRelativeTime nowMs dateMs = claimRelative nowMs dateMs)
    ∧ (∀ nowMs : Int, getRelativeTime nowMs (nowMs + 604800000) = "in 1 week")
    ∧ (∀ nowMs : Int, getRelativeTime nowMs (nowMs + 31536000000) = "in 1 year") := by
  refine ⟨getRelativeTime_eq_claimRelative, ?_, ?_⟩
  · intro nowMs
    unfold getRelativeTime
    rw [show nowMs + 604800000 - nowMs = 604800000 by omega]
    rfl
  · intro nowMs
    unfold getRelativeTime
    rw [show nowMs + 31536000000 - nowMs = 31536000000 by omega]
    rfl

/-- C5: every relative-mode output follows the claim's sign and
pluralization convention — `in {n} {unit(s)}` for a positive magnitude,
`{|n|} {unit(s)} ago` otherwise, singular exactly at absolute value 1 — and
a zero difference lands in the non-positive branch of the seconds bucket,
rendering "0 seconds ago"; magnitude 1 drops the `s`, magnitude 2 keeps it. -/
theorem claim5_phrase_convention :
    (∀ nowMs dateMs : Int, ∃ (n : Int) (u : String),
      u ∈ (["second", "minute", "hour", "day", "week", "year"] : List String) ∧
      getRelativeTime nowMs dateMs = renderPhrase n u)
    ∧ (∀ nowMs : Int, getRelativeTime nowMs nowMs = "0 seconds ago")
    ∧ (∀ nowMs : Int, getRelativeTime nowMs (nowMs + 1000) = "in 1 second")
    ∧ (∀ nowMs : Int, getRelativeTime nowMs (nowMs + 2000) = "in 2 seconds") := by
  refine ⟨?_, ?_, ?_, ?_⟩
  · intro nowMs dateMs
    rw [getRelativeTime_eq_claimRelative]
    simp only [claimRelative]
    split_ifs
    · exact ⟨_, "year", by decide, rfl⟩
    · exact ⟨_, "week", by decide, rfl⟩
    · exact ⟨_, "second", by decide, rfl⟩
    · exact ⟨_, "minute", by decide, rfl⟩
    · exact ⟨_, "hour", by decide, rfl⟩
    · exact ⟨_, "day", by decide, rfl⟩
  · intro nowMs
    unfold getRelativeTime
    rw [show nowMs - nowMs = 0 by omega]
    rfl
  · intro nowMs
    unfold getRelativeTime
    rw [show nowMs + 1000 - nowMs = 1000 by omega]
    rfl
  · intro nowMs
    unfold getRelativeTime
    rw [show nowMs + 2000 - nowMs = 2000 by omega]
    rfl

/-- C6 counterexample: two host environments that agree on everything except
the `default`-mode locale data (as real hosts do across ICU versions)
produce different strings for identical `(timestamp, timezone, mode)`
arguments, so the output is not a function of those three arguments alone
across host environments. -/
theorem claim6_counterexample :
    formatTimestamp env0 (JSNum.int 1747510600) "UTC" "default" =
      Except.ok "1747510600000 default UTC"
    ∧ formatTimestamp env1 (JSNum.int 1747510600) "UTC" "default" =
      Except.ok "1747510600000 DEFAULT UTC"
    ∧ ("1747510600000 default UTC" : String) ≠ "1747510600000 DEFAULT UTC" := by
  exact ⟨rfl, rfl, by decide⟩

/-- C6 (amended): within a fixed host environment, for the modes `default`,
`date`, `compact` and `iso` the formatter output is a pure function of
`(timestamp, timezone, mode)`: it does not read the current-instant source,
so repeated calls at different times return the same string. -/
theorem claim6_determinism :
    ∀ (env : Env) (n : Int) (ts : JSNum) (tz mode : String),
      mode = "default" ∨ mode = "date" ∨ mode = "compact" ∨ mode = "iso" →
      formatTimestamp (setNow env n) ts tz mode = formatTimestamp env ts tz mode := by
  intro env n ts tz mode hm
  have hrel : mode ≠ "relative" := by
    rcases hm with rfl | rfl | rfl | rfl <;> decide
  exact formatTimestampF_congr (setNow env n) env mode mode
    (fun ts tz => formatAttempt_setNow env n ts tz mode hrel) 1 ts tz

/-- C6 witness: the determinism theorem applied at a concrete clock change. -/
theorem claim6_witness :
    formatTimestamp (setNow env0 999999) (JSNum.int 5) "UTC" "date" =
      formatTimestamp env0 (JSNum.int 5) "UTC" "date" :=
  claim6_determinism env0 999999 (JSNum.int 5) "UTC" "date" (Or.inr (Or.inl rfl))

/-- C7: a mode value that is not one of the four specifically-handled switch
cases (in particular any value outside the five-member enumeration) falls
through to the `default` rendering: the call equals the call with mode
`"default"`, for every timestamp, timezone and environment. -/
theorem claim7_unrecognized_mode :
    ∀ (env : Env) (ts : JSNum) (tz mode : String),
      mode ≠ "date" → mode ≠ "compact" → mode ≠ "iso" → mode ≠ "relative" →
      formatTimestamp env ts tz mode = formatTimestamp env ts tz "default" := by
  intro env ts tz mode h1 h2 h3 h4
  exact formatTimestampF_congr env env mode "default"
    (fun ts tz => formatAttempt_mode_irrel env ts tz mode h1 h2 h3 h4) 1 ts tz

/-- C7 witness: an unrecognized mode string behaves like `default`. -/
theorem claim7_witness :
    formatTimestamp env0 (JSNum.int 0) "UTC" "banana" =
      formatTimestamp env0 (JSNum.int 0) "UTC" "default" :=
  claim7_unrecognized_mode env0 (JSNum.int 0) "UTC" "banana"
    (by decide) (by decide) (by decide) (by decide)

/-- C8: the safe wrapper returns the formatter's string whenever the call
succeeds and the caller-supplied fallback string whenever the formatter
raises, never propagating the failure. -/
theorem claim8_safe_wrapper :
    ∀ (env : Env) (ts : JSNum) (tz mode fb : String),
      (∀ s, formatTimestamp env ts tz mode = Except.ok s →
        safeFormatTimestamp env ts tz mode fb = s)
      ∧ (∀ e, formatTimestamp env ts tz mode = Except.error e →
        safeFormatTimestamp env ts tz mode fb = fb) := by
  intro env ts tz mode fb
  constructor
  · intro s h
    unfold safeFormatTimestamp
    rw [h]
  · intro e h
    unfold safeFormatTimestamp
    rw [h]

/-- C8 witness: the claim's concrete scenario,
`safeFormatTimestamp(-1, "UTC", "default", "Error occurred")`. -/
theorem claim8_witness :
    safeFormatTimestamp env0 (JSNum.int (-1)) "UTC" "default" "Error occurred" =
      "Error occurred" :=
  (claim8_safe_wrapper env0 (JSNum.int (-1)) "UTC" "default" "Error occurred").2
    invalidTimestampError rfl

/-- C9 counterexample: the claim fails on finite non-integer numbers.  At
`v = 4102444800.5` — a finite number above the bound, whose decimal string
is `"4102444800.5"` — `isValidTimestamp` is true, but `parseInt` truncates
the decimal string at the `.` to `4102444800`, which is inside the accepted
range, so `validateTimestamp` returns it non-null instead of the null the
claim requires. -/
theorem claim9_counterexample :
    isValidTimestamp (JSValue.num (JSNum.frac (4102444800 + 1 / 2))) = true
    ∧ (4102444800 : ℚ) < 4102444800 + 1 / 2
    ∧ validateTimestamp "4102444800.5" = some 4102444800 := by
  refine ⟨?_, by norm_num, by decide⟩
  simp only [isValidTimestamp, jsIsFinite, jsNonneg, Bool.true_and, decide_eq_true_eq]
  norm_num

/-- C9 (amended): `isValidTimestamp(value)` returns true iff value is a
finite number `≥ 0`; it does not enforce the upper bound, so every finite
number above 4102444800 passes it; and for every finite **integer**
`t > 4102444800`, `validateTimestamp` of `t`'s decimal string is null (for
non-integer finite values the decimal string can parse back into range, as
in the counterexample). -/
theorem claim9_isValidTimestamp_asymmetry :
    (∀ v : JSValue, isValidTimestamp v = true ↔
      ((∃ t : Int, v = JSValue.num (JSNum.int t) ∧ 0 ≤ t) ∨
       (∃ q : ℚ, v = JSValue.num (JSNum.frac q) ∧ 0 ≤ q)))
    ∧ (∀ q : ℚ, (4102444800 : ℚ) < q →
        isValidTimestamp (JSValue.num (JSNum.frac q)) = true)
    ∧ (∀ t : Int, MAX_TIMESTAMP < t →
        isValidTimestamp (JSValue.num (JSNum.int t)) = true ∧
        validateTimestamp (intDecString t) = none) := by
  refine ⟨?_, ?_, ?_⟩
  · intro v
    constructor
    · intro h
      cases v with
      | num x =>
        cases x with
        | int t =>
          exact Or.inl ⟨t, rfl, by simpa [isValidTimestamp, jsIsFinite, jsNonneg] using h⟩
        | frac q =>
          exact Or.inr ⟨q, rfl, by simpa [isValidTimestamp, jsIsFinite, jsNonneg] using h⟩
        | nan => exact absurd h (by decide)
        | inf => exact absurd h (by decide)
        | neginf => exact absurd h (by decide)
      | str s => exact absurd h (by simp [isValidTimestamp])
      | undef => exact absurd h (by decide)
      | nullv => exact absurd h (by decide)
      | other => exact absurd h (by decide)
    · rintro (⟨t, rfl, ht⟩ | ⟨q, rfl, hq⟩)
      · simp [isValidTimestamp, jsIsFinite, jsNonneg, ht]
      · simp [isValidTimestamp, jsIsFinite, jsNonneg, hq]
  · intro q hq
    have hq0 : 0 ≤ q := le_of_lt (lt_of_le_of_lt (by norm_num) hq)
    simp [isValidTimestamp, jsIsFinite, jsNonneg, hq0]
  · intro t ht
    have ht0 : 0 ≤ t := by
      simp only [MAX_TIMESTAMP] at ht
      omega
    refine ⟨by simp [isValidTimestamp, jsIsFinite, jsNonneg, ht0], ?_⟩
    have hds : intDecString t = String.mk (natDecChars t.natAbs) := by
      unfold intDecString
      rw [if_neg (by omega)]
    have hcast : ((t.natAbs : Nat) : Int) = t := Int.natAbs_of_nonneg ht0
    have hp : jsParseInt (intDecString t) = some t := by
      rw [hds, jsParseInt_natDec, hcast]
    have hne : intDecString t ≠ "" := by
      rw [hds]
      intro h
      exact natDecChars_ne_nil t.natAbs (congrArg String.data h)
    unfold validateTimestamp
    rw [if_neg hne, hp]
    show (if t < MIN_TIMESTAMP ∨ MAX_TIMESTAMP < t then (none : Option Int)
        else some t) = none
    rw [if_pos (Or.inr ht)]

/-- C9 witness: the amended asymmetry at a fractional value and at the first
integer past the upper bound. -/
theorem claim9_witness :
    isValidTimestamp (JSValue.num (JSNum.frac (4102444800 + 1 / 2))) = true ∧
    isValidTimestamp (JSValue.num (JSNum.int 4102444801)) = true ∧
    validateTimestamp (intDecString 4102444801) = none :=
  ⟨claim9_isValidTimestamp_asymmetry.2.1 (4102444800 + 1 / 2) (by norm_num),
   (claim9_isValidTimestamp_asymmetry.2.2 4102444801 (by decide)).1,
   (claim9_isValidTimestamp_asymmetry.2.2 4102444801 (by decide)).2⟩

/-- C10: for every timestamp in the validated range the invalid-date guard
in the formatter's try block passes (the "results in invalid date" branch is
unreachable), yet the finite non-negative timestamp 8640000000001 — just
past the representable `Date` range of 8.64e12 seconds — passes the explicit
precondition checks and still makes `formatTimestamp` throw that error, in
every environment. -/
theorem claim10_invalid_date_branch :
    (∀ t : Int, 0 ≤ t → t ≤ MAX_TIMESTAMP → isValidDateMs (t * 1000) = true)
    ∧ (∀ (env : Env) (tz mode : String), tz ≠ "" →
        formatTimestamp env (JSNum.int 8640000000001) tz mode =
          Except.error invalidDateError) := by
  constructor
  · exact isValidDateMs_of_range
  · intro env tz mode htz
    have hbody : formatTryBody env (8640000000001 * 1000) tz mode =
        Except.error invalidDateError := by
      unfold formatTryBody
      rw [if_pos (by decide)]
    exact formatTimestampF_err env 1 8640000000001 tz mode invalidDateError
      (by decide) htz hbody (by decide)

/-- C10 witness: the range bound at the top of the validated range, and the
overflow throw at the sample environment. -/
theorem claim10_witness :
    isValidDateMs (4102444800 * 1000) = true ∧
    formatTimestamp env0 (JSNum.int 8640000000001) "UTC" "default" =
      Except.error invalidDateError :=
  ⟨claim10_invalid_date_branch.1 4102444800 (by decide) (by decide),
   claim10_invalid_date_branch.2 env0 "UTC" "default" (by decide)⟩

end Swaptz
